import Mathlib

/-!
Verification of the follow-up email sender script
(reports/emailer/send_followup_emails_smart.py).

The script is embedded shallowly at the level of character lists:
a Python `str` is modelled as `List Char`, and the handful of Python
string methods the script uses (`strip`, `split`, `lower`, `title`,
`replace`, whitespace `split()`) are given explicit structural
definitions mirroring CPython semantics on the ASCII inputs the
script handles.  Interactive input is modelled as lists of lines an
operator would type; network and filesystem effects are recorded as
an explicit event trace.  Exceptions raised by the SMTP library are
modelled by Boolean outcome oracles (one per attempted delivery).
-/

/-- Convert a Lean string literal to the character-list representation
used throughout this development. -/
def toCharList (s : String) : List Char := s.data

/-- Opening curly brace character (written numerically). -/
def lbrace : Char := Char.ofNat 123

/-- Closing curly brace character (written numerically). -/
def rbrace : Char := Char.ofNat 125

/-- ASCII apostrophe character (written numerically). -/
def squote : Char := Char.ofNat 39

/-- ASCII double-quote character (written numerically). -/
def dquote : Char := Char.ofNat 34

/-- Python `str.strip()` with no arguments: remove leading and trailing
whitespace. -/
def pyStrip (s : List Char) : List Char :=
  ((s.dropWhile Char.isWhitespace).reverse.dropWhile Char.isWhitespace).reverse

/-- Python `str.split(sep)` for a single-character separator: split on every
occurrence of `sep`, keeping empty segments (so the result always has one
more segment than there are separators). -/
def splitOnChar (sep : Char) : List Char → List (List Char)
  | [] => [[]]
  | c :: cs =>
    let r := splitOnChar sep cs
    if c = sep then [] :: r
    else
      match r with
      | h :: t => (c :: h) :: t
      | [] => [[c]]

/-- Python `str.lower()` (ASCII case mapping, which covers every character
the script manipulates). -/
def pyLower (s : List Char) : List Char := s.map Char.toLower

/-- Helper for `pyTitle`: the Boolean argument records whether the previous
character was cased (alphabetic), in which case the current letter is
lowercased; otherwise it is uppercased. -/
def pyTitleAux : Bool → List Char → List Char
  | _, [] => []
  | prevCased, c :: cs =>
    (if prevCased then c.toLower else c.toUpper) :: pyTitleAux c.isAlpha cs

/-- Python `str.title()`: uppercase each letter that follows a non-cased
character, lowercase every other letter. -/
def pyTitle (s : List Char) : List Char := pyTitleAux false s

/-- Python `str.join` with a newline separator, as used by
`get_booking_data` to rebuild the pasted block. -/
def joinNl : List (List Char) → List Char
  | [] => []
  | l :: ls =>
    match ls with
    | [] => l
    | _ :: _ => l ++ '\n' :: joinNl ls

/-- Helper for `pySplitWs`: accumulate the current word (reversed) while
scanning, emitting it at each whitespace boundary. -/
def pySplitWsAux : List Char → List Char → List (List Char)
  | acc, [] => if acc = [] then [] else [acc.reverse]
  | acc, c :: cs =>
    if c.isWhitespace then
      if acc = [] then pySplitWsAux [] cs else acc.reverse :: pySplitWsAux [] cs
    else pySplitWsAux (c :: acc) cs

/-- Python `str.split()` with no arguments: split on runs of whitespace,
discarding empty words. -/
def pySplitWs (s : List Char) : List (List Char) := pySplitWsAux [] s

/-- The expression `recipient['name'].split()[0]` used by the script: the
first whitespace-separated token of a name.  (CPython raises `IndexError`
when there is no token; the script only applies this to names that are
non-empty after stripping, where a first token always exists.  We return
the empty list in the unreachable case.) -/
def firstToken (s : List Char) : List Char := (pySplitWs s).headD []

/-- Python `int()` applied to a string of ASCII digits. -/
def digitsToNat (s : List Char) : Nat :=
  s.foldl (fun n c => n * 10 + (c.toNat - 48)) 0

/-- Worker for `replaceAll`, structurally recursive on a fuel argument so
that the kernel can evaluate it; with `fuel` at least the length of the
scanned string the fuel never runs out, since a non-empty match consumes
at least one character and a non-match consumes exactly one. -/
def replaceAllFuel (pat rep : List Char) : Nat → List Char → List Char
  | _, [] => []
  | 0, s => s
  | fuel + 1, c :: cs =>
    if pat ≠ [] ∧ pat.isPrefixOf (c :: cs) then
      rep ++ replaceAllFuel pat rep fuel ((c :: cs).drop pat.length)
    else
      c :: replaceAllFuel pat rep fuel cs

/-- Python `str.replace(pat, rep)`: replace every occurrence of `pat`,
scanning left to right without overlap.  The script only calls this with
the non-empty literal placeholders, so the `pat = []` case (in which
CPython would insert `rep` at every position) is never exercised; this
model leaves the string unchanged there. -/
def replaceAll (pat rep s : List Char) : List Char :=
  replaceAllFuel pat rep s.length s

-- ===== CONFIGURATION (module-level constants of the script) =====

/-- Constant `SENDER_EMAIL` from the script configuration block. -/
def SENDER_EMAIL : List Char := toCharList "about.last.night.game@gmail.com"

/-- Constant `SENDER_NAME` from the script configuration block. -/
def SENDER_NAME : List Char := toCharList "Max & Shuai"

/-- Constant `REPLY_TO_EMAIL` from the script configuration block. -/
def REPLY_TO_EMAIL : List Char := toCharList "about.last.night@gmail.com"

/-- Constant `CASE_FILE_BASE` from the script configuration block. -/
def CASE_FILE_BASE : List Char := toCharList "https://aboutlastnightgame.com/reports/"

/-- Constant `FEEDBACK_BASE` from the script configuration block. -/
def FEEDBACK_BASE : List Char := toCharList "https://aboutlastnightgame.com/feedback.html"

/-- Constant `TEMPLATE_FILE` from the script configuration block. -/
def TEMPLATE_FILE : List Char := toCharList "about_last_night_followup_template.html"

/-- Constant `DELAY_BETWEEN_EMAILS` (seconds) from the script configuration
block. -/
def DELAY_BETWEEN_EMAILS : Nat := 1

/-- Constant `SAVE_CSV` from the script configuration block. -/
def SAVE_CSV : Bool := true

-- ===== parse_booking_data =====

/-- One parsed recipient: the dictionary with keys name and email built by
`parse_booking_data`. -/
structure Recipient where
  name : List Char
  email : List Char
deriving DecidableEq

/-- Character class `[a-zA-Z0-9._%+-]` of the local part of the email
validation regex. -/
def isLocalChar (c : Char) : Bool :=
  c.isAlpha || c.isDigit || c = '.' || c = '_' || c = '%' || c = '+' || c = '-'

/-- Character class `[a-zA-Z0-9.-]` of the domain part of the email
validation regex. -/
def isDomainChar (c : Char) : Bool :=
  c.isAlpha || c.isDigit || c = '.' || c = '-'

/-- The anchored regex match performed by `parse_booking_data` on each email
line.  The pattern demands: a non-empty run of local characters, a single
at-sign, a non-empty run of domain characters, and, after the last dot of
the domain, at least two letters.  Because the local and domain classes
exclude the at-sign, a match forces exactly one at-sign in the whole
string, and because the top-level-domain run excludes dots, the dot before
it is necessarily the last dot; this definition spells the pattern out in
that normalized form. -/
def emailValid (s : List Char) : Bool :=
  match splitOnChar '@' s with
  | [lo, dom] =>
    let parts := splitOnChar '.' dom
    let tld := parts.getLastD []
    decide (lo ≠ []) && lo.all isLocalChar &&
      dom.all isDomainChar && decide (2 ≤ parts.length) &&
      decide (parts.dropLast ≠ [[]]) &&
      decide (2 ≤ tld.length) && tld.all Char.isAlpha
  | _ => false

/-- The warning diagnostic printed for an email line that fails the
validation regex (the recipient is still kept). -/
def warning_line (email : List Char) : List Char :=
  toCharList "  ⚠️  Warning: " ++ [squote] ++ email ++ [squote] ++
    toCharList " doesn" ++ [squote] ++ toCharList "t look like a valid email"

/-- The line-splitting comprehension at the top of `parse_booking_data`:
strip the raw text, split it on newlines, strip each line and drop the
lines that are empty after stripping. -/
def parse_lines (raw : List Char) : List (List Char) :=
  ((splitOnChar '\n' (pyStrip raw)).map pyStrip).filter (fun l => l ≠ [])

/-- The pairing loop of `parse_booking_data`: walk the cleaned lines two at
a time; each odd-indexed line is checked against the validation regex
(producing a warning when it fails) and the pair is appended with the name
title-cased and the email lowercased.  Returns the warnings and the
recipients, both in input order. -/
def parse_booking_pairs : List (List Char) → List (List Char) × List Recipient
  | name :: email :: rest =>
    let r := parse_booking_pairs rest
    ((if emailValid email then [] else [warning_line email]) ++ r.1,
      ⟨pyTitle name, pyLower email⟩ :: r.2)
  | _ => ([], [])

/-- Function `parse_booking_data`: clean the pasted block into stripped
non-empty lines; raise `ValueError` (modelled as `Except.error` carrying
the message) when the line count is odd, otherwise build the recipient
list from consecutive name/email pairs, recording a warning for each email
line that fails the validation regex. -/
def parse_booking_data (raw : List Char) :
    Except (List Char) (List (List Char) × List Recipient) :=
  let lines := parse_lines raw
  if lines.length % 2 ≠ 0 then
    .error (toCharList "Expected even number of lines (name/email pairs), got " ++
      Nat.toDigits 10 lines.length)
  else
    .ok (parse_booking_pairs lines)

-- ===== get_session_info =====

/-- The three sequential checks the date-entry loop applies to a stripped
entry: the anchored regex match on exactly four digits, then the month
bounds 1..12 on the first two digits, then the day bounds 1..31 on the
last two. -/
def valid_session_date (s : List Char) : Bool :=
  decide (s.length = 4) && s.all Char.isDigit &&
    decide (1 ≤ digitsToNat (s.take 2)) && decide (digitsToNat (s.take 2) ≤ 12) &&
    decide (1 ≤ digitsToNat (s.drop 2)) && decide (digitsToNat (s.drop 2) ≤ 31)

/-- The first `while True` loop of `get_session_info`: read entries in
order, strip each, and return the first one passing all three validation
checks; entries failing any check only produce a diagnostic and a
re-prompt.  `none` models the operator never supplying a valid entry. -/
def date_prompt_loop : List (List Char) → Option (List Char)
  | [] => none
  | inp :: rest =>
    let s := pyStrip inp
    if valid_session_date s then some s else date_prompt_loop rest

/-- The second `while True` loop of `get_session_info`: strip the entry,
defaulting to 1 when it is empty, and return it once it is one of 1, 2
or 3. -/
def session_num_prompt_loop : List (List Char) → Option (List Char)
  | [] => none
  | inp :: rest =>
    let s := if pyStrip inp = [] then toCharList "1" else pyStrip inp
    if s = toCharList "1" ∨ s = toCharList "2" ∨ s = toCharList "3" then some s
    else session_num_prompt_loop rest

/-- Function `get_session_info`, over the two streams of interactive
entries: validate a session date, choose a session number, and derive the
report identifier (the date itself for session 1, the date with the
session number appended otherwise). -/
def get_session_info (dateInputs numInputs : List (List Char)) :
    Option (List Char × List Char) :=
  match date_prompt_loop dateInputs with
  | none => none
  | some session_date =>
    match session_num_prompt_loop numInputs with
    | none => none
    | some session_num =>
      let report_id :=
        if session_num = toCharList "1" then session_date
        else session_date ++ session_num
      some (session_date, report_id)

-- ===== personalize_email / create_email_message =====

/-- The template placeholder for the player name. -/
def PLAYER_NAME_PH : List Char :=
  [lbrace, lbrace] ++ toCharList "PLAYER_NAME" ++ [rbrace, rbrace]

/-- The template placeholder for the case-file URL. -/
def CASE_FILE_URL_PH : List Char :=
  [lbrace, lbrace] ++ toCharList "CASE_FILE_URL" ++ [rbrace, rbrace]

/-- The template placeholder for the feedback-form URL. -/
def FEEDBACK_FORM_URL_PH : List Char :=
  [lbrace, lbrace] ++ toCharList "FEEDBACK_FORM_URL" ++ [rbrace, rbrace]

/-- Function `personalize_email`: three successive placeholder
substitutions on the template, in the order the script performs them. -/
def personalize_email (template : List Char) (recipient : Recipient)
    (session_date report_id : List Char) : List Char :=
  replaceAll FEEDBACK_FORM_URL_PH (FEEDBACK_BASE ++ toCharList "?date=" ++ session_date)
    (replaceAll CASE_FILE_URL_PH
      (CASE_FILE_BASE ++ toCharList "report" ++ report_id ++ toCharList ".html")
      (replaceAll PLAYER_NAME_PH (firstToken recipient.name) template))

/-- One MIME body part: its subtype (plain or html) and its decoded text
content. -/
structure MimePart where
  subtype : List Char
  content : List Char
deriving DecidableEq

/-- The multipart message assembled by `create_email_message`: the
container subtype, the four headers the script sets, and the attached
parts in attachment order. -/
structure EmailMessage where
  subtype : List Char
  fromHeader : List Char
  toHeader : List Char
  replyTo : List Char
  subject : List Char
  parts : List MimePart
deriving DecidableEq

/-- The characters that cause `email.utils.formataddr` to wrap a display
name in double quotes. -/
def addrSpecials : List Char :=
  [']', '[', '\\', '(', ')', '<', '>', '@', ',', ':', ';', dquote, '.']

/-- The escaping `email.utils.formataddr` applies inside a display name:
backslashes and double quotes are preceded by a backslash. -/
def quoteEscape : List Char → List Char
  | [] => []
  | c :: cs => (if c = '\\' ∨ c = dquote then ['\\', c] else [c]) ++ quoteEscape cs

/-- Python `email.utils.formataddr` on an ASCII display name: an empty name
yields the bare address, otherwise the (escaped, and quoted when it
contains a special character) name followed by the angle-bracketed
address. -/
def formataddr (name addr : List Char) : List Char :=
  if name = [] then addr
  else
    let escaped := quoteEscape name
    let shown :=
      if name.any (fun c => c ∈ addrSpecials) then dquote :: escaped ++ [dquote]
      else escaped
    shown ++ toCharList " <" ++ addr ++ ['>']

/-- The plain-text fallback body of `create_email_message` after the first
name has been spliced in: everything from the comma following the greeting
to the trailing indentation of the Python triple-quoted literal. -/
def text_body_rest : List Char :=
  toCharList ",\n\nFirst of all, thank you.\n\nI hope it gave you something worth remembering.\n\nAnd speaking of memories — Detective Anondono" ++
    [squote] ++
    toCharList "s case file is ready.\n\nVisit aboutlastnightgame.com to view your personalized case file and leave feedback.\n\nIf you want to share anything from the night — photos, theories, hot takes — we" ++
    [squote] ++
    toCharList "d love to see it. \nTag @storypunkstudio on Instagram or StoryPunk on Facebook.\n\nWe" ++
    [squote] ++
    toCharList "d love to have you come back and play again and bring your crew through. \nUse promo code EarlyAccessWelcomeBack for a 33% discount.\n\nThanks again for being part of this.\n\nMax & Shuai\nStoryPunk / Patchwork Adventures\n    "

/-- The stripped plain-text body for a recipient. -/
def text_content (recipient : Recipient) : List Char :=
  pyStrip (toCharList "\nHey " ++ firstToken recipient.name ++ text_body_rest)

/-- Function `create_email_message`: a multipart/alternative container with
the fixed headers, the plain-text fallback attached first and the
personalized HTML attached second. -/
def create_email_message (recipient : Recipient) (html_content : List Char) :
    EmailMessage :=
  { subtype := toCharList "alternative"
    fromHeader := formataddr SENDER_NAME SENDER_EMAIL
    toHeader := recipient.email
    replyTo := REPLY_TO_EMAIL
    subject := toCharList "Thank you for playing About Last Night"
    parts := [⟨toCharList "plain", text_content recipient⟩,
              ⟨toCharList "html", html_content⟩] }

-- ===== Event trace model of the effectful part of the script =====

/-- One observable effect of a run of `main`: a console line, the CSV
record file write, the template file read, one `server.send_message`
network call (carrying the message handed to it), or one `time.sleep`
call. -/
inductive Event where
  | printed (line : List Char)
  | csvWrite (filename : List Char)
  | templateLoad
  | sendMessage (msg : EmailMessage)
  | sleep (seconds : Nat)
deriving DecidableEq

/-- Whether an event is a real outbound delivery attempt (a
`server.send_message` call). -/
def Event.isSend : Event → Bool
  | .sendMessage _ => true
  | _ => false

/-- Whether an event is a `time.sleep` call. -/
def Event.isSleep : Event → Bool
  | .sleep _ => true
  | _ => false

/-- The console line `send_email` prints in dry-run mode. -/
def dry_run_line (r : Recipient) : List Char :=
  toCharList "  [DRY RUN] Would send to: " ++ r.name ++ toCharList " <" ++
    r.email ++ ['>']

/-- The console line `send_email` prints after a successful delivery. -/
def sent_line (r : Recipient) : List Char :=
  toCharList "  ✓ Sent to: " ++ r.name ++ toCharList " <" ++ r.email ++ ['>']

/-- The console diagnostic `send_email` prints when `server.send_message`
raises: it names the failed recipient address and carries the exception
text. -/
def fail_line (email errText : List Char) : List Char :=
  toCharList "  ✗ Failed to send to " ++ email ++ toCharList ": " ++ errText

/-- Function `send_email`: in dry-run mode nothing is transmitted and the
call reports success; otherwise `server.send_message` is attempted, whose
outcome is supplied by the Boolean `deliveryOk` (true: the call returns,
false: it raises and the exception is caught here).  Returns the Boolean
result together with the events of the call. -/
def send_email (r : Recipient) (msg : EmailMessage) (dry_run deliveryOk : Bool)
    (errText : List Char) : Bool × List Event :=
  if dry_run then (true, [.printed (dry_run_line r)])
  else if deliveryOk then (true, [.sendMessage msg, .printed (sent_line r)])
  else (false, [.sendMessage msg, .printed (fail_line r.email errText)])

-- ===== get_booking_data =====

/-- The line-collection loop of `get_booking_data`: read console lines,
appending the non-blank ones, until a blank line arrives after at least
one collected line.  `none` models the operator never terminating the
paste. -/
def collect_paste_lines (acc : List (List Char)) :
    List (List Char) → Option (List (List Char))
  | [] => none
  | l :: rest =>
    if pyStrip l = [] ∧ acc ≠ [] then some acc.reverse
    else if pyStrip l ≠ [] then collect_paste_lines (l :: acc) rest
    else collect_paste_lines acc rest

/-- The success line `get_booking_data` prints with the recipient count. -/
def parsed_count_line (n : Nat) : List Char :=
  toCharList "\n✓ Parsed " ++ Nat.toDigits 10 n ++ toCharList " recipients"

/-- The first diagnostic `get_booking_data` prints when
`parse_booking_data` raises `ValueError`. -/
def parse_error_line (msg : List Char) : List Char :=
  toCharList "\n❌ Error parsing data: " ++ msg

/-- The second diagnostic printed on a parse error. -/
def paste_retry_line : List Char :=
  toCharList "Please check your paste format and try again."

/-- Function `get_booking_data`: collect the pasted block, join it with
newlines, and parse it; a `ValueError` from the parser is caught here,
two diagnostics are printed and the empty list is returned.  The result
pairs the console events of the call with the recipient list. -/
def get_booking_data (stream : List (List Char)) :
    Option (List Event × List Recipient) :=
  match collect_paste_lines [] stream with
  | none => none
  | some lines =>
    match parse_booking_data (joinNl lines) with
    | .ok (warnings, recipients) =>
      some (warnings.map Event.printed ++
        [.printed (parsed_count_line recipients.length)], recipients)
    | .error msg =>
      some ([.printed (parse_error_line msg), .printed paste_retry_line], [])

-- ===== main =====

/-- The normalization `.strip().lower()` applied to both confirmation
answers in `main`. -/
def norm_answer (s : List Char) : List Char := pyLower (pyStrip s)

/-- The literal the confirmation answers are compared against. -/
def yesChars : List Char := toCharList "yes"

/-- The CSV filename `main` derives from the session date and report
identifier. -/
def csv_filename (session_date report_id : List Char) : List Char :=
  toCharList "recipients_" ++ session_date ++ ['_'] ++ report_id ++
    toCharList ".csv"

/-- Step 7 of `main`: the dry-run pass builds each personalized message and
calls `send_email` with `dry_run=True` for every recipient, in order. -/
def dry_run_pass (template session_date report_id : List Char) :
    List Recipient → List Event
  | [] => []
  | r :: rest =>
    let personalized := personalize_email template r session_date report_id
    let msg := create_email_message r personalized
    (send_email r msg true true []).2 ++
      dry_run_pass template session_date report_id rest

/-- Step 9 of `main`: the real-send loop.  `i` is the 1-based position of
the current recipient, `n` the total count printed in the progress
prefix, `cnt` the running success count; `deliveryOk` and `errText` give,
per position, the outcome of that delivery attempt and the text of the
exception when it fails.  After each send except the one at position `n`
the loop sleeps for `DELAY_BETWEEN_EMAILS` seconds.  Returns the events
of the loop and the final success count. -/
def real_send_pass (template session_date report_id : List Char)
    (deliveryOk : Nat → Bool) (errText : Nat → List Char) (n : Nat) :
    List Recipient → Nat → Nat → List Event × Nat
  | [], _, cnt => ([], cnt)
  | r :: rest, i, cnt =>
    let personalized := personalize_email template r session_date report_id
    let msg := create_email_message r personalized
    let res := send_email r msg false (deliveryOk i) (errText i)
    let cnt' := if res.1 then cnt + 1 else cnt
    let evs := if i < n then res.2 ++ [Event.sleep DELAY_BETWEEN_EMAILS] else res.2
    let rec' := real_send_pass template session_date report_id deliveryOk errText n
      rest (i + 1) cnt'
    (evs ++ rec'.1, rec'.2)

/-- All interactive and environmental inputs one run of `main` can consume:
whether the template file exists and its content, the entries typed at the
two session prompts, the pasted stream, the two confirmation answers,
whether the SMTP connection phase (connect, STARTTLS, login) succeeds, and
the per-position delivery outcomes of the real-send loop. -/
structure MainInput where
  templateExists : Bool
  templateText : List Char
  dateInputs : List (List Char)
  numInputs : List (List Char)
  pasteStream : List (List Char)
  confirm1 : List Char
  confirm2 : List Char
  connectOk : Bool
  deliveryOk : Nat → Bool
  errText : Nat → List Char

/-- The diagnostic `main` prints when the template file is missing. -/
def template_missing_line : List Char :=
  toCharList "\n❌ Template file not found: " ++ TEMPLATE_FILE

/-- The line printed on either declined confirmation. -/
def cancelled_line : List Char := toCharList "Cancelled."

/-- The first diagnostic of the authentication-failure handler. -/
def auth_failed_line : List Char := toCharList "\n❌ Authentication failed!"

/-- Function `main` of the script (named `main_run` here because Lean
reserves `main`), returning the event trace of the run and the final
success count (`none` models a run blocked forever on interactive input).
Pure banner and progress prints are elided from the trace; every print
that a branch decision or an error handler produces is kept.  An SMTP
connection-phase failure is caught by the outer handler around the
real-send block, so in that case no delivery is attempted and the success
count stays zero. -/
def main_run (inp : MainInput) : Option (List Event × Nat) :=
  if inp.templateExists = false then
    some ([.printed template_missing_line], 0)
  else
    match get_session_info inp.dateInputs inp.numInputs with
    | none => none
    | some (session_date, report_id) =>
      match get_booking_data inp.pasteStream with
      | none => none
      | some (bookingEvs, recipients) =>
        if recipients = [] then some (bookingEvs, 0)
        else if norm_answer inp.confirm1 ≠ yesChars then
          some (bookingEvs ++ [.printed cancelled_line], 0)
        else
          let csvEvs :=
            if SAVE_CSV then [Event.csvWrite (csv_filename session_date report_id)]
            else []
          let evs1 := bookingEvs ++ csvEvs ++ [Event.templateLoad] ++
            dry_run_pass inp.templateText session_date report_id recipients
          if norm_answer inp.confirm2 ≠ yesChars then
            some (evs1 ++ [.printed cancelled_line], 0)
          else if inp.connectOk = false then
            some (evs1 ++ [.printed auth_failed_line], 0)
          else
            let res := real_send_pass inp.templateText session_date report_id
              inp.deliveryOk inp.errText recipients.length recipients 1 0
            some (evs1 ++ res.1, res.2)

-- ===== Lemmas about the pairing loop =====

/-- The pairing loop returns one recipient per input pair. -/
theorem ppairs_length (lines : List (List Char)) :
    (parse_booking_pairs lines).2.length = lines.length / 2 := by
  induction lines using parse_booking_pairs.induct with
  | case1 a b rest ih =>
    simp only [parse_booking_pairs, List.length_cons]
    rw [ih]
    omega
  | case2 t h =>
    cases t with
    | nil => simp [parse_booking_pairs]
    | cons a t2 =>
      cases t2 with
      | nil => simp [parse_booking_pairs]
      | cons b r => exact absurd rfl (h a b r)

/-- The recipient at position `i` of the pairing loop is built from lines
`2 * i` (name, title-cased) and `2 * i + 1` (email, lowercased). -/
theorem ppairs_getD (lines : List (List Char)) :
    ∀ i, i < lines.length / 2 →
      (parse_booking_pairs lines).2.getD i ⟨[], []⟩ =
        ⟨pyTitle (lines.getD (2 * i) []), pyLower (lines.getD (2 * i + 1) [])⟩ := by
  induction lines using parse_booking_pairs.induct with
  | case1 a b rest ih =>
    intro i hi
    cases i with
    | zero => simp [parse_booking_pairs]
    | succ j =>
      have hi' : j < rest.length / 2 := by
        simp only [List.length_cons] at hi
        omega
      have h2 : 2 * (j + 1) = 2 * j + 1 + 1 := by ring
      have h3 : 2 * (j + 1) + 1 = 2 * j + 1 + 1 + 1 := by ring
      simp only [parse_booking_pairs, h2, h3, List.getD_cons_succ]
      exact ih j hi'
  | case2 t h =>
    intro i hi
    cases t with
    | nil =>
      exfalso
      simp only [List.length_nil] at hi
      omega
    | cons a t2 =>
      cases t2 with
      | nil =>
        exfalso
        simp only [List.length_cons, List.length_nil] at hi
        omega
      | cons b r => exact absurd rfl (h a b r)

/-- When the email line of pair `i` fails the validation regex, its warning
is among the warnings the pairing loop collects. -/
theorem ppairs_warning (lines : List (List Char)) :
    ∀ i, i < lines.length / 2 →
      emailValid (lines.getD (2 * i + 1) []) = false →
      warning_line (lines.getD (2 * i + 1) []) ∈ (parse_booking_pairs lines).1 := by
  induction lines using parse_booking_pairs.induct with
  | case1 a b rest ih =>
    intro i hi hbad
    cases i with
    | zero =>
      have e1 : 2 * 0 + 1 = 0 + 1 := by ring
      rw [e1, List.getD_cons_succ, List.getD_cons_zero] at hbad ⊢
      simp only [parse_booking_pairs, List.mem_append, hbad]
      exact Or.inl (by simp)
    | succ j =>
      have hi' : j < rest.length / 2 := by
        simp only [List.length_cons] at hi
        omega
      have h3 : 2 * (j + 1) + 1 = 2 * j + 1 + 1 + 1 := by ring
      rw [h3, List.getD_cons_succ, List.getD_cons_succ] at hbad ⊢
      simp only [parse_booking_pairs, List.mem_append]
      exact Or.inr (ih j hi' hbad)
  | case2 t h =>
    intro i hi
    cases t with
    | nil =>
      exfalso
      simp only [List.length_nil] at hi
      omega
    | cons a t2 =>
      cases t2 with
      | nil =>
        exfalso
        simp only [List.length_cons, List.length_nil] at hi
        omega
      | cons b r => exact absurd rfl (h a b r)

-- ===== C1 / C2 / C9 =====

/-- C1: for every pasted text whose non-empty stripped lines number `2 * n`,
`parse_booking_data` returns a list of exactly `n` recipients in input
order, the recipient at position `i` taking its name from line `2 * i`
(title-cased) and its email from line `2 * i + 1` (lowercased). -/
theorem parse_booking_data_even_pairs (raw : List Char) (n : Nat)
    (h : (parse_lines raw).length = 2 * n) :
    ∃ ws rs, parse_booking_data raw = .ok (ws, rs) ∧ rs.length = n ∧
      ∀ i, i < n → rs.getD i ⟨[], []⟩ =
        ⟨pyTitle ((parse_lines raw).getD (2 * i) []),
         pyLower ((parse_lines raw).getD (2 * i + 1) [])⟩ := by
  have hmod : ¬ (parse_lines raw).length % 2 ≠ 0 := by
    rw [h]
    omega
  refine ⟨(parse_booking_pairs (parse_lines raw)).1,
    (parse_booking_pairs (parse_lines raw)).2, ?_, ?_, ?_⟩
  · simp only [parse_booking_data, if_neg hmod]
  · rw [ppairs_length, h]
    omega
  · intro i hi
    exact ppairs_getD (parse_lines raw) i (by rw [h]; omega)

/-- Witness for C1: a concrete paste of one name/email pair. -/
theorem parse_booking_data_even_pairs_witness :
    (parse_lines (toCharList "brian benson\nBRIAN@example.com")).length = 2 * 1 ∧
    (∃ ws rs,
      parse_booking_data (toCharList "brian benson\nBRIAN@example.com") = .ok (ws, rs) ∧
      rs.length = 1 ∧
      ∀ i, i < 1 → rs.getD i ⟨[], []⟩ =
        ⟨pyTitle ((parse_lines (toCharList "brian benson\nBRIAN@example.com")).getD (2 * i) []),
         pyLower ((parse_lines (toCharList "brian benson\nBRIAN@example.com")).getD (2 * i + 1) [])⟩) :=
  ⟨by decide, parse_booking_data_even_pairs (toCharList "brian benson\nBRIAN@example.com") 1 (by decide)⟩

/-- C2: for every pasted text with an odd number of non-empty stripped
lines, `parse_booking_data` raises `ValueError` (an `Except.error` result)
and returns no recipient list. -/
theorem parse_booking_data_odd_raises (raw : List Char)
    (h : (parse_lines raw).length % 2 = 1) :
    ∃ msg, parse_booking_data raw = .error msg := by
  have hmod : (parse_lines raw).length % 2 ≠ 0 := by omega
  exact ⟨toCharList "Expected even number of lines (name/email pairs), got " ++
    Nat.toDigits 10 (parse_lines raw).length,
    by simp only [parse_booking_data, if_pos hmod]⟩

/-- Witness for C2: a single-line paste. -/
theorem parse_booking_data_odd_raises_witness :
    (parse_lines (toCharList "Alice")).length % 2 = 1 ∧
    (∃ msg, parse_booking_data (toCharList "Alice") = .error msg) :=
  ⟨by decide, parse_booking_data_odd_raises (toCharList "Alice") (by decide)⟩

/-- C9: `parse_booking_data` never rejects a pair because of the email
content: the recipient at position `i` is always present, title-cased name
from line `2 * i` and lowercased email from line `2 * i + 1`, and a line
failing the validation regex merely adds a printed warning. -/
theorem parse_booking_data_keeps_invalid_email (raw : List Char)
    (ws : List (List Char)) (rs : List Recipient)
    (h : parse_booking_data raw = .ok (ws, rs)) (i : Nat) (hi : i < rs.length) :
    (rs.getD i ⟨[], []⟩).name = pyTitle ((parse_lines raw).getD (2 * i) []) ∧
    (rs.getD i ⟨[], []⟩).email = pyLower ((parse_lines raw).getD (2 * i + 1) []) ∧
    (emailValid ((parse_lines raw).getD (2 * i + 1) []) = false →
      warning_line ((parse_lines raw).getD (2 * i + 1) []) ∈ ws) := by
  simp only [parse_booking_data] at h
  by_cases hmod : (parse_lines raw).length % 2 ≠ 0
  · rw [if_pos hmod] at h
    exact absurd h (by simp)
  · rw [if_neg hmod] at h
    have hp := Except.ok.inj h
    have hw : (parse_booking_pairs (parse_lines raw)).1 = ws := by rw [hp]
    have hr : (parse_booking_pairs (parse_lines raw)).2 = rs := by rw [hp]
    have hi' : i < (parse_lines raw).length / 2 := by
      rw [← ppairs_length, hr]
      exact hi
    refine ⟨?_, ?_, ?_⟩
    · rw [← hr, ppairs_getD (parse_lines raw) i hi']
    · rw [← hr, ppairs_getD (parse_lines raw) i hi']
    · intro hbad
      rw [← hw]
      exact ppairs_warning (parse_lines raw) i hi' hbad

/-- Witness for C9: a pair whose email line fails the validation regex is
still returned, with its warning recorded. -/
theorem parse_booking_data_keeps_invalid_email_witness :
    parse_booking_data (toCharList "Alice\nnot-an-email") =
      .ok ([warning_line (toCharList "not-an-email")],
        [⟨toCharList "Alice", toCharList "not-an-email"⟩]) ∧
    (([(⟨toCharList "Alice", toCharList "not-an-email"⟩ : Recipient)].getD 0 ⟨[], []⟩).name =
        pyTitle ((parse_lines (toCharList "Alice\nnot-an-email")).getD (2 * 0) []) ∧
      ([(⟨toCharList "Alice", toCharList "not-an-email"⟩ : Recipient)].getD 0 ⟨[], []⟩).email =
        pyLower ((parse_lines (toCharList "Alice\nnot-an-email")).getD (2 * 0 + 1) []) ∧
      (emailValid ((parse_lines (toCharList "Alice\nnot-an-email")).getD (2 * 0 + 1) []) = false →
        warning_line ((parse_lines (toCharList "Alice\nnot-an-email")).getD (2 * 0 + 1) []) ∈
          [warning_line (toCharList "not-an-email")])) :=
  ⟨by rfl,
    parse_booking_data_keeps_invalid_email (toCharList "Alice\nnot-an-email")
      [warning_line (toCharList "not-an-email")]
      [⟨toCharList "Alice", toCharList "not-an-email"⟩] (by rfl) 0 (by decide)⟩

-- ===== Lemmas about the session prompts =====

/-- Dropping from a list none of whose elements satisfies the predicate is
the identity. -/
theorem dropWhile_eq_self_of (p : Char → Bool) (l : List Char)
    (h : ∀ c ∈ l, p c = false) : l.dropWhile p = l := by
  cases l with
  | nil => rfl
  | cons a t =>
    have ha := h a (by simp)
    rw [List.dropWhile_cons, if_neg (by simp [ha])]

/-- Stripping a string with no whitespace characters is the identity. -/
theorem pyStrip_no_ws (l : List Char) (h : ∀ c ∈ l, c.isWhitespace = false) :
    pyStrip l = l := by
  unfold pyStrip
  rw [dropWhile_eq_self_of _ _ h]
  rw [dropWhile_eq_self_of _ _ (fun c hc => h c (List.mem_reverse.mp hc))]
  exact List.reverse_reverse l

/-- An ASCII digit is not a whitespace character. -/
theorem isDigit_not_whitespace (c : Char) (h : c.isDigit = true) :
    c.isWhitespace = false := by
  have h1 : c ≠ ' ' := fun e => absurd (e ▸ h) (by decide)
  have h2 : c ≠ '\t' := fun e => absurd (e ▸ h) (by decide)
  have h3 : c ≠ '\x0d' := fun e => absurd (e ▸ h) (by decide)
  have h4 : c ≠ '\n' := fun e => absurd (e ▸ h) (by decide)
  simp [Char.isWhitespace, h1, h2, h3, h4]

/-- Whatever the date prompt loop returns passed all three validation
checks. -/
theorem date_prompt_loop_valid (inputs : List (List Char)) (d : List Char)
    (h : date_prompt_loop inputs = some d) : valid_session_date d = true := by
  induction inputs with
  | nil => exact absurd h (by simp [date_prompt_loop])
  | cons a rest ih =>
    simp only [date_prompt_loop] at h
    split at h
    · rename_i hv
      cases h
      exact hv
    · exact ih h

/-- Whatever the session-number prompt loop returns is 1, 2 or 3. -/
theorem session_num_loop_cases (inputs : List (List Char)) (s : List Char)
    (h : session_num_prompt_loop inputs = some s) :
    s = toCharList "1" ∨ s = toCharList "2" ∨ s = toCharList "3" := by
  induction inputs with
  | nil => exact absurd h (by simp [session_num_prompt_loop])
  | cons a rest ih =>
    simp only [session_num_prompt_loop] at h
    generalize ht : (if pyStrip a = [] then toCharList "1" else pyStrip a) = t at h
    split at h
    · rename_i hv
      cases h
      exact hv
    · exact ih h

-- ===== C6 / C10 =====

/-- C6: `get_session_info` can return a session date string exactly when it
consists of four digits whose first two form a month between 1 and 12 and
whose last two form a day between 1 and 31; every entry violating a check
is rejected by the loop and never returned. -/
theorem get_session_info_date_validation (d : List Char) :
    (∃ dateInputs numInputs report_id,
        get_session_info dateInputs numInputs = some (d, report_id)) ↔
      (d.length = 4 ∧ (∀ c ∈ d, c.isDigit = true) ∧
        1 ≤ digitsToNat (d.take 2) ∧ digitsToNat (d.take 2) ≤ 12 ∧
        1 ≤ digitsToNat (d.drop 2) ∧ digitsToNat (d.drop 2) ≤ 31) := by
  constructor
  · rintro ⟨di, ni, rid, h⟩
    unfold get_session_info at h
    cases hd : date_prompt_loop di with
    | none => rw [hd] at h; exact absurd h (by simp)
    | some sd =>
      rw [hd] at h
      cases hn : session_num_prompt_loop ni with
      | none => rw [hn] at h; exact absurd h (by simp)
      | some sn =>
        rw [hn] at h
        simp only [Option.some.injEq, Prod.mk.injEq] at h
        obtain ⟨hsd, _⟩ := h
        rw [hsd] at hd
        have hv := date_prompt_loop_valid di d hd
        simp only [valid_session_date, Bool.and_eq_true, decide_eq_true_eq,
          List.all_eq_true] at hv
        exact ⟨hv.1.1.1.1.1, hv.1.1.1.1.2, hv.1.1.1.2, hv.1.1.2, hv.1.2, hv.2⟩
  · rintro ⟨h1, h2, h3, h4, h5, h6⟩
    have hstrip : pyStrip d = d :=
      pyStrip_no_ws d (fun c hc => isDigit_not_whitespace c (h2 c hc))
    have hv : valid_session_date d = true := by
      simp only [valid_session_date, Bool.and_eq_true, decide_eq_true_eq,
        List.all_eq_true]
      exact ⟨⟨⟨⟨⟨h1, h2⟩, h3⟩, h4⟩, h5⟩, h6⟩
    refine ⟨[d], [toCharList "1"], d, ?_⟩
    have hdl : date_prompt_loop [d] = some d := by
      simp only [date_prompt_loop, hstrip, hv, if_true]
    have hnl : session_num_prompt_loop [toCharList "1"] = some (toCharList "1") := by
      decide
    simp [get_session_info, hdl, hnl]

/-- Witness for C6 (instantiating the characterization at a concrete valid
date). -/
theorem get_session_info_date_validation_witness :
    (∃ dateInputs numInputs report_id,
        get_session_info dateInputs numInputs = some (toCharList "1204", report_id)) :=
  (get_session_info_date_validation (toCharList "1204")).mpr (by decide)

/-- C10: the report identifier returned by `get_session_info` equals the
session date exactly when session number 1 was chosen, and the date with
the chosen number appended otherwise; hence it begins with the validated
four-digit date and has length 4 or 5. -/
theorem get_session_info_report_id (dateInputs numInputs : List (List Char))
    (d rid : List Char)
    (h : get_session_info dateInputs numInputs = some (d, rid)) :
    ∃ num, session_num_prompt_loop numInputs = some num ∧
      (num = toCharList "1" → rid = d) ∧
      (num ≠ toCharList "1" → rid = d ++ num) ∧
      rid.take 4 = d ∧ (rid.length = 4 ∨ rid.length = 5) := by
  unfold get_session_info at h
  cases hd : date_prompt_loop dateInputs with
  | none => rw [hd] at h; exact absurd h (by simp)
  | some sd =>
    rw [hd] at h
    cases hn : session_num_prompt_loop numInputs with
    | none => rw [hn] at h; exact absurd h (by simp)
    | some sn =>
      rw [hn] at h
      simp only [Option.some.injEq, Prod.mk.injEq] at h
      obtain ⟨hsd, hrid⟩ := h
      rw [hsd] at hd hrid
      have hlen : d.length = 4 := by
        have hv := date_prompt_loop_valid dateInputs d hd
        simp only [valid_session_date, Bool.and_eq_true, decide_eq_true_eq] at hv
        exact hv.1.1.1.1.1
      have hcases := session_num_loop_cases numInputs sn hn
      refine ⟨sn, rfl, ?_, ?_, ?_, ?_⟩
      · intro h1
        rw [← hrid, if_pos h1]
      · intro h1
        rw [← hrid, if_neg h1]
      · by_cases h1 : sn = toCharList "1"
        · rw [← hrid, if_pos h1, ← hlen, List.take_length]
        · rw [← hrid, if_neg h1, ← hlen, List.take_left]
      · by_cases h1 : sn = toCharList "1"
        · rw [← hrid, if_pos h1]
          exact Or.inl hlen
        · rw [← hrid, if_neg h1]
          right
          rcases hcases with h2 | h2 | h2
          · exact absurd h2 h1
          · rw [List.length_append, hlen, h2]
            decide
          · rw [List.length_append, hlen, h2]
            decide

/-- Witness for C10 at a concrete third-session run. -/
theorem get_session_info_report_id_witness :
    get_session_info [toCharList "1204"] [toCharList "3"] =
      some (toCharList "1204", toCharList "12043") ∧
    (∃ num, session_num_prompt_loop [toCharList "3"] = some num ∧
      (num = toCharList "1" → toCharList "12043" = toCharList "1204") ∧
      (num ≠ toCharList "1" → toCharList "12043" = toCharList "1204" ++ num) ∧
      (toCharList "12043").take 4 = toCharList "1204" ∧
      ((toCharList "12043").length = 4 ∨ (toCharList "12043").length = 5)) :=
  ⟨by decide, get_session_info_report_id [toCharList "1204"] [toCharList "3"]
    (toCharList "1204") (toCharList "12043") (by decide)⟩

-- ===== C7 =====

/-- C7: the message built for a recipient is a multipart/alternative
container holding a plain-text part and an HTML part, the HTML part being
the template with the player-name placeholder replaced by the first
whitespace-separated token of the name, the case-file placeholder replaced
by `CASE_FILE_BASE + "report" + report_id + ".html"`, and the feedback
placeholder replaced by `FEEDBACK_BASE + "?date=" + session_date`. -/
theorem create_email_message_spec (template : List Char) (r : Recipient)
    (session_date report_id : List Char) :
    (create_email_message r (personalize_email template r session_date report_id)).subtype =
      toCharList "alternative" ∧
    (create_email_message r (personalize_email template r session_date report_id)).parts =
      [⟨toCharList "plain", text_content r⟩,
       ⟨toCharList "html",
        replaceAll FEEDBACK_FORM_URL_PH
          (FEEDBACK_BASE ++ toCharList "?date=" ++ session_date)
          (replaceAll CASE_FILE_URL_PH
            (CASE_FILE_BASE ++ toCharList "report" ++ report_id ++ toCharList ".html")
            (replaceAll PLAYER_NAME_PH (firstToken r.name) template))⟩] :=
  ⟨rfl, rfl⟩

-- ===== Lemmas about the event traces of the passes =====

/-- Console-only event lists contain no delivery attempt. -/
theorem no_send_of_printed (evs : List Event) (h : ∀ e ∈ evs, ∃ l, e = .printed l) :
    ∀ e ∈ evs, e.isSend = false := by
  intro e he
  obtain ⟨l, rfl⟩ := h e he
  rfl

/-- The events of `get_booking_data` are console prints only. -/
theorem get_booking_data_printed (stream : List (List Char)) (evs : List Event)
    (R : List Recipient) (h : get_booking_data stream = some (evs, R)) :
    ∀ e ∈ evs, ∃ l, e = .printed l := by
  unfold get_booking_data at h
  cases hc : collect_paste_lines [] stream with
  | none => rw [hc] at h; exact absurd h (by simp)
  | some lines =>
    rw [hc] at h
    simp only [Option.some.injEq] at h
    cases hp : parse_booking_data (joinNl lines) with
    | ok pr =>
      obtain ⟨w, r⟩ := pr
      rw [hp] at h
      simp only [Option.some.injEq, Prod.mk.injEq] at h
      obtain ⟨h1, -⟩ := h
      subst h1
      intro e he
      rcases List.mem_append.mp he with h2 | h2
      · obtain ⟨l, -, rfl⟩ := List.mem_map.mp h2
        exact ⟨l, rfl⟩
      · rw [List.mem_singleton] at h2
        subst h2
        exact ⟨_, rfl⟩
    | error msg =>
      rw [hp] at h
      simp only [Option.some.injEq, Prod.mk.injEq] at h
      obtain ⟨h1, -⟩ := h
      subst h1
      intro e he
      rcases List.mem_cons.mp he with h2 | h2
      · subst h2
        exact ⟨_, rfl⟩
      · rw [List.mem_singleton] at h2
        subst h2
        exact ⟨_, rfl⟩

/-- The dry-run pass prints exactly one dry-run line per recipient, in
order, and nothing else. -/
theorem dry_run_pass_eq (t sd rid : List Char) (rs : List Recipient) :
    dry_run_pass t sd rid rs = rs.map (fun r => .printed (dry_run_line r)) := by
  induction rs with
  | nil => rfl
  | cons r rest ih => simp [dry_run_pass, send_email, ih]

/-- Splitting the count of a shifted predicate over an initial range. -/
theorem countP_range_shift (p : Nat → Bool) (k i : Nat) :
    (List.range (k + 1)).countP (fun j => p (i + j)) =
      (if p i then 1 else 0) + (List.range k).countP (fun j => p (i + 1 + j)) := by
  rw [List.range_succ_eq_map, List.countP_cons, List.countP_map]
  have h1 : (List.range k).countP ((fun j => p (i + j)) ∘ Nat.succ) =
      (List.range k).countP (fun j => p (i + 1 + j)) := by
    apply List.countP_congr
    intro a _
    simp only [Function.comp_apply]
    have e : i + a.succ = i + 1 + a := by omega
    rw [e]
  rw [h1]
  simp only [Nat.add_zero]
  exact Nat.add_comm _ _

/-- In real mode, `send_email` returns exactly the delivery outcome. -/
theorem send_email_fst (r : Recipient) (msg : EmailMessage) (d : Bool)
    (e : List Char) : (send_email r msg false d e).1 = d := by
  cases d <;> rfl

/-- One iteration of the real-send loop: it contributes a block of events
holding exactly one delivery attempt, one sleep exactly when the position
is below `n`, only fixed-delay sleeps, and the failure diagnostic when the
delivery at this position fails; the loop then continues on the remaining
recipients with the accumulator bumped on success. -/
theorem real_send_pass_step (t sd rid : List Char) (ok : Nat → Bool)
    (err : Nat → List Char) (n : Nat) (r : Recipient) (rest : List Recipient)
    (i cnt : Nat) :
    ∃ stepEvs : List Event,
      real_send_pass t sd rid ok err n (r :: rest) i cnt =
        (stepEvs ++ (real_send_pass t sd rid ok err n rest (i + 1)
            (if ok i then cnt + 1 else cnt)).1,
          (real_send_pass t sd rid ok err n rest (i + 1)
            (if ok i then cnt + 1 else cnt)).2) ∧
      stepEvs.countP Event.isSend = 1 ∧
      stepEvs.countP Event.isSleep = (if i < n then 1 else 0) ∧
      (∀ e ∈ stepEvs, e.isSleep = true → e = .sleep DELAY_BETWEEN_EMAILS) ∧
      (ok i = false → Event.printed (fail_line r.email (err i)) ∈ stepEvs) := by
  by_cases hok : ok i
  · by_cases hlt : i < n
    · refine ⟨[.sendMessage (create_email_message r (personalize_email t r sd rid)),
        .printed (sent_line r), .sleep DELAY_BETWEEN_EMAILS], ?_, rfl, ?_, ?_, ?_⟩
      · simp [real_send_pass, send_email, hok, hlt]
      · simp [hlt, Event.isSleep]
      · intro e he hs
        simp only [List.mem_cons, List.not_mem_nil, or_false] at he
        rcases he with rfl | rfl | rfl
        · simp [Event.isSleep] at hs
        · simp [Event.isSleep] at hs
        · rfl
      · intro hbad
        rw [hok] at hbad
        cases hbad
    · refine ⟨[.sendMessage (create_email_message r (personalize_email t r sd rid)),
        .printed (sent_line r)], ?_, rfl, ?_, ?_, ?_⟩
      · simp [real_send_pass, send_email, hok, hlt]
      · simp [hlt, Event.isSleep]
      · intro e he hs
        simp only [List.mem_cons, List.not_mem_nil, or_false] at he
        rcases he with rfl | rfl
        · simp [Event.isSleep] at hs
        · simp [Event.isSleep] at hs
      · intro hbad
        rw [hok] at hbad
        cases hbad
  · have hok' : ok i = false := by
      cases h : ok i
      · rfl
      · exact absurd h hok
    by_cases hlt : i < n
    · refine ⟨[.sendMessage (create_email_message r (personalize_email t r sd rid)),
        .printed (fail_line r.email (err i)), .sleep DELAY_BETWEEN_EMAILS], ?_, rfl, ?_, ?_, ?_⟩
      · simp [real_send_pass, send_email, hok', hlt]
      · simp [hlt, Event.isSleep]
      · intro e he hs
        simp only [List.mem_cons, List.not_mem_nil, or_false] at he
        rcases he with rfl | rfl | rfl
        · simp [Event.isSleep] at hs
        · simp [Event.isSleep] at hs
        · rfl
      · intro _
        simp
    · refine ⟨[.sendMessage (create_email_message r (personalize_email t r sd rid)),
        .printed (fail_line r.email (err i))], ?_, rfl, ?_, ?_, ?_⟩
      · simp [real_send_pass, send_email, hok', hlt]
      · simp [hlt, Event.isSleep]
      · intro e he hs
        simp only [List.mem_cons, List.not_mem_nil, or_false] at he
        rcases he with rfl | rfl
        · simp [Event.isSleep] at hs
        · simp [Event.isSleep] at hs
      · intro _
        simp

/-- Joint specification of the real-send loop: exactly one delivery
attempt per recipient (a failure never stops the loop), the final count
adds one per successful delivery, sleeps happen exactly at the positions
below `n`, every sleep has the fixed delay, and every failed position
leaves its diagnostic in the trace. -/
theorem real_send_pass_spec (t sd rid : List Char) (ok : Nat → Bool)
    (err : Nat → List Char) (n : Nat) (rs : List Recipient) :
    ∀ i cnt,
      (real_send_pass t sd rid ok err n rs i cnt).1.countP Event.isSend = rs.length ∧
      (real_send_pass t sd rid ok err n rs i cnt).2 =
        cnt + (List.range rs.length).countP (fun j => ok (i + j)) ∧
      (real_send_pass t sd rid ok err n rs i cnt).1.countP Event.isSleep =
        (List.range rs.length).countP (fun j => decide (i + j < n)) ∧
      (∀ e ∈ (real_send_pass t sd rid ok err n rs i cnt).1,
        e.isSleep = true → e = .sleep DELAY_BETWEEN_EMAILS) ∧
      (∀ j, j < rs.length → ok (i + j) = false →
        Event.printed (fail_line (rs.getD j ⟨[], []⟩).email (err (i + j))) ∈
          (real_send_pass t sd rid ok err n rs i cnt).1) := by
  induction rs with
  | nil =>
    intro i cnt
    refine ⟨rfl, by simp [real_send_pass], rfl, ?_, ?_⟩
    · intro e he
      simp [real_send_pass] at he
    · intro j hj
      simp at hj
  | cons r rest ih =>
    intro i cnt
    obtain ⟨stepEvs, heq, hs1, hs2, hs3, hs4⟩ :=
      real_send_pass_step t sd rid ok err n r rest i cnt
    obtain ⟨ih1, ih2, ih3, ih4, ih5⟩ := ih (i + 1) (if ok i then cnt + 1 else cnt)
    rw [heq]
    refine ⟨?_, ?_, ?_, ?_, ?_⟩
    · simp only [List.countP_append, hs1, ih1, List.length_cons]
      omega
    · simp only [List.length_cons, ih2]
      rw [countP_range_shift ok rest.length i]
      by_cases hok : ok i <;> simp [hok] <;> omega
    · simp only [List.countP_append, hs2, ih3, List.length_cons]
      rw [countP_range_shift (fun m => decide (m < n)) rest.length i]
      by_cases hlt : i < n <;> simp [hlt]
    · intro e he hs
      rcases List.mem_append.mp he with h | h
      · exact hs3 e h hs
      · exact ih4 e h hs
    · intro j hj hfail
      cases j with
      | zero =>
        simp only [Nat.add_zero] at hfail
        rw [List.getD_cons_zero]
        simp only [Nat.add_zero]
        exact List.mem_append_left _ (hs4 hfail)
      | succ j' =>
        have e : i + (j' + 1) = i + 1 + j' := by omega
        rw [e] at hfail
        rw [List.getD_cons_succ, e]
        refine List.mem_append_right _ (ih5 j' ?_ hfail)
        simp only [List.length_cons] at hj
        omega

/-- Exhaustive case analysis of a completed run of `main`: each disjunct is
one of the exit paths of the script, carrying the exact event trace and
count of that path. -/
theorem main_run_cases (inp : MainInput) (evs : List Event) (cnt : Nat)
    (h : main_run inp = some (evs, cnt)) :
    (inp.templateExists = false ∧ evs = [.printed template_missing_line] ∧ cnt = 0) ∨
    (∃ sd rid bk R,
      inp.templateExists = true ∧
      get_session_info inp.dateInputs inp.numInputs = some (sd, rid) ∧
      get_booking_data inp.pasteStream = some (bk, R) ∧
      ((R = [] ∧ evs = bk ∧ cnt = 0) ∨
       (R ≠ [] ∧ norm_answer inp.confirm1 ≠ yesChars ∧
         evs = bk ++ [.printed cancelled_line] ∧ cnt = 0) ∨
       (R ≠ [] ∧ norm_answer inp.confirm1 = yesChars ∧
         norm_answer inp.confirm2 ≠ yesChars ∧
         evs = (bk ++ [Event.csvWrite (csv_filename sd rid)] ++ [Event.templateLoad] ++
           dry_run_pass inp.templateText sd rid R) ++ [.printed cancelled_line] ∧
         cnt = 0) ∨
       (R ≠ [] ∧ norm_answer inp.confirm1 = yesChars ∧
         norm_answer inp.confirm2 = yesChars ∧ inp.connectOk = false ∧
         evs = (bk ++ [Event.csvWrite (csv_filename sd rid)] ++ [Event.templateLoad] ++
           dry_run_pass inp.templateText sd rid R) ++ [.printed auth_failed_line] ∧
         cnt = 0) ∨
       (R ≠ [] ∧ norm_answer inp.confirm1 = yesChars ∧
         norm_answer inp.confirm2 = yesChars ∧ inp.connectOk = true ∧
         evs = (bk ++ [Event.csvWrite (csv_filename sd rid)] ++ [Event.templateLoad] ++
           dry_run_pass inp.templateText sd rid R) ++
           (real_send_pass inp.templateText sd rid inp.deliveryOk inp.errText
             R.length R 1 0).1 ∧
         cnt = (real_send_pass inp.templateText sd rid inp.deliveryOk inp.errText
             R.length R 1 0).2))) := by
  unfold main_run at h
  by_cases hte : inp.templateExists = false
  · rw [if_pos hte] at h
    simp only [Option.some.injEq, Prod.mk.injEq] at h
    exact Or.inl ⟨hte, h.1.symm, h.2.symm⟩
  · rw [if_neg hte] at h
    have hte' : inp.templateExists = true := by
      cases hx : inp.templateExists
      · exact absurd hx hte
      · rfl
    right
    cases hsi : get_session_info inp.dateInputs inp.numInputs with
    | none => rw [hsi] at h; exact absurd h (by simp)
    | some p =>
      obtain ⟨sd, rid⟩ := p
      rw [hsi] at h
      cases hbk : get_booking_data inp.pasteStream with
      | none => rw [hbk] at h; exact absurd h (by simp)
      | some q =>
        obtain ⟨bk, R⟩ := q
        rw [hbk] at h
        simp only [Option.some.injEq] at h
        refine ⟨sd, rid, bk, R, hte', rfl, rfl, ?_⟩
        by_cases hR : R = []
        · rw [if_pos hR] at h
          simp only [Option.some.injEq, Prod.mk.injEq] at h
          exact Or.inl ⟨hR, h.1.symm, h.2.symm⟩
        · rw [if_neg hR] at h
          by_cases hc1 : norm_answer inp.confirm1 ≠ yesChars
          · rw [if_pos hc1] at h
            simp only [Option.some.injEq, Prod.mk.injEq] at h
            exact Or.inr (Or.inl ⟨hR, hc1, h.1.symm, h.2.symm⟩)
          · rw [if_neg hc1] at h
            have hc1' : norm_answer inp.confirm1 = yesChars := by
              by_contra hx
              exact hc1 hx
            simp only [SAVE_CSV, if_true] at h
            by_cases hc2 : norm_answer inp.confirm2 ≠ yesChars
            · rw [if_pos hc2] at h
              simp only [Option.some.injEq, Prod.mk.injEq] at h
              exact Or.inr (Or.inr (Or.inl ⟨hR, hc1', hc2, h.1.symm, h.2.symm⟩))
            · rw [if_neg hc2] at h
              have hc2' : norm_answer inp.confirm2 = yesChars := by
                by_contra hx
                exact hc2 hx
              by_cases hco : inp.connectOk = false
              · rw [if_pos hco] at h
                simp only [Option.some.injEq, Prod.mk.injEq] at h
                exact Or.inr (Or.inr (Or.inr (Or.inl
                  ⟨hR, hc1', hc2', hco, h.1.symm, h.2.symm⟩)))
              · rw [if_neg hco] at h
                have hco' : inp.connectOk = true := by
                  cases hx : inp.connectOk
                  · exact absurd hx hco
                  · rfl
                simp only [Option.some.injEq, Prod.mk.injEq] at h
                exact Or.inr (Or.inr (Or.inr (Or.inr
                  ⟨hR, hc1', hc2', hco', h.1.symm, h.2.symm⟩)))

/-- Elements of the common prefix (booking prints, CSV write, template
load, dry-run prints) are never delivery attempts. -/
theorem prefix_no_send (bk : List Event) (hbk : ∀ e ∈ bk, ∃ l, e = .printed l)
    (sd rid t : List Char) (R : List Recipient) :
    ∀ e ∈ bk ++ [Event.csvWrite (csv_filename sd rid)] ++ [Event.templateLoad] ++
      dry_run_pass t sd rid R, e.isSend = false := by
  intro e he
  simp only [List.append_assoc, List.mem_append] at he
  rcases he with h | h | h | h
  · exact no_send_of_printed bk hbk e h
  · rw [List.mem_singleton] at h
    subst h
    rfl
  · rw [List.mem_singleton] at h
    subst h
    rfl
  · rw [dry_run_pass_eq] at h
    obtain ⟨r, -, rfl⟩ := List.mem_map.mp h
    rfl

/-- C3: in every completed run of `main`, a real delivery attempt can only
happen when both confirmation answers normalize to exactly yes, and only
after the dry-run line of every recipient has been printed; any other
answer at either prompt ends the run with no delivery attempt and a zero
success count. -/
theorem main_run_send_gating (inp : MainInput) (evs : List Event) (cnt : Nat)
    (h : main_run inp = some (evs, cnt)) :
    ((norm_answer inp.confirm1 ≠ yesChars ∨ norm_answer inp.confirm2 ≠ yesChars) →
      (∀ e ∈ evs, e.isSend = false) ∧ cnt = 0) ∧
    ((∃ e ∈ evs, e.isSend = true) →
      norm_answer inp.confirm1 = yesChars ∧ norm_answer inp.confirm2 = yesChars ∧
      ∃ R pre post, evs = pre ++ post ∧
        (∃ bk, get_booking_data inp.pasteStream = some (bk, R)) ∧
        (∀ r ∈ R, Event.printed (dry_run_line r) ∈ pre) ∧
        (∀ e ∈ pre, e.isSend = false)) := by
  rcases main_run_cases inp evs cnt h with
    ⟨hte, he, hcnt⟩ | ⟨sd, rid, bk, R, hte, hsi, hbk, hrest⟩
  · subst he
    constructor
    · intro _
      refine ⟨?_, hcnt⟩
      intro e he'
      rw [List.mem_singleton] at he'
      subst he'
      rfl
    · intro ⟨e, he', hsend⟩
      rw [List.mem_singleton] at he'
      subst he'
      cases hsend
  · have hbkp := get_booking_data_printed inp.pasteStream bk R hbk
    rcases hrest with ⟨hR, he, hcnt⟩ | ⟨hR, hc1, he, hcnt⟩ |
      ⟨hR, hc1, hc2, he, hcnt⟩ | ⟨hR, hc1, hc2, hco, he, hcnt⟩ |
      ⟨hR, hc1, hc2, hco, he, hcnt⟩
    · refine ⟨fun _ => ⟨?_, hcnt⟩, ?_⟩
      · rw [he]
        exact no_send_of_printed bk hbkp
      · intro ⟨e, he', hsend⟩
        rw [he] at he'
        rw [no_send_of_printed bk hbkp e he'] at hsend
        cases hsend
    · subst he
      have hnosend : ∀ e ∈ bk ++ [Event.printed cancelled_line], e.isSend = false := by
        intro e he'
        rcases List.mem_append.mp he' with h2 | h2
        · exact no_send_of_printed bk hbkp e h2
        · rw [List.mem_singleton] at h2
          subst h2
          rfl
      refine ⟨fun _ => ⟨hnosend, hcnt⟩, ?_⟩
      intro ⟨e, he', hsend⟩
      rw [hnosend e he'] at hsend
      cases hsend
    · subst he
      have hnosend : ∀ e ∈ (bk ++ [Event.csvWrite (csv_filename sd rid)] ++
          [Event.templateLoad] ++ dry_run_pass inp.templateText sd rid R) ++
          [Event.printed cancelled_line], e.isSend = false := by
        intro e he'
        rcases List.mem_append.mp he' with h2 | h2
        · exact prefix_no_send bk hbkp sd rid inp.templateText R e h2
        · rw [List.mem_singleton] at h2
          subst h2
          rfl
      refine ⟨fun _ => ⟨hnosend, hcnt⟩, ?_⟩
      intro ⟨e, he', hsend⟩
      rw [hnosend e he'] at hsend
      cases hsend
    · subst he
      have hnosend : ∀ e ∈ (bk ++ [Event.csvWrite (csv_filename sd rid)] ++
          [Event.templateLoad] ++ dry_run_pass inp.templateText sd rid R) ++
          [Event.printed auth_failed_line], e.isSend = false := by
        intro e he'
        rcases List.mem_append.mp he' with h2 | h2
        · exact prefix_no_send bk hbkp sd rid inp.templateText R e h2
        · rw [List.mem_singleton] at h2
          subst h2
          rfl
      refine ⟨fun _ => ⟨hnosend, hcnt⟩, ?_⟩
      intro ⟨e, he', hsend⟩
      rw [hnosend e he'] at hsend
      cases hsend
    · constructor
      · intro hno
        rcases hno with hx | hx
        · exact absurd hc1 hx
        · exact absurd hc2 hx
      · intro _
        refine ⟨hc1, hc2, R,
          bk ++ [Event.csvWrite (csv_filename sd rid)] ++ [Event.templateLoad] ++
            dry_run_pass inp.templateText sd rid R,
          (real_send_pass inp.templateText sd rid inp.deliveryOk inp.errText
            R.length R 1 0).1, he, ⟨bk, hbk⟩, ?_, ?_⟩
        · intro r hr
          simp only [List.append_assoc, List.mem_append]
          refine Or.inr (Or.inr (Or.inr ?_))
          rw [dry_run_pass_eq]
          exact List.mem_map.mpr ⟨r, hr, rfl⟩
        · exact prefix_no_send bk hbkp sd rid inp.templateText R

/-- Witness for C3: a run whose second confirmation is declined performs no
delivery attempt. -/
def c3Input : MainInput :=
  { templateExists := true
    templateText := toCharList "Hello"
    dateInputs := [toCharList "1204"]
    numInputs := [toCharList "1"]
    pasteStream := [toCharList "Alice", toCharList "alice@example.com", []]
    confirm1 := toCharList "yes"
    confirm2 := toCharList "no"
    connectOk := true
    deliveryOk := fun _ => true
    errText := fun _ => [] }

theorem main_run_send_gating_witness :
    main_run c3Input = some ((((main_run c3Input).getD ([], 0)).1,
      ((main_run c3Input).getD ([], 0)).2) : List Event × Nat) ∧
    (((norm_answer c3Input.confirm1 ≠ yesChars ∨
        norm_answer c3Input.confirm2 ≠ yesChars) →
      (∀ e ∈ ((main_run c3Input).getD ([], 0)).1, e.isSend = false) ∧
        ((main_run c3Input).getD ([], 0)).2 = 0) ∧
    ((∃ e ∈ ((main_run c3Input).getD ([], 0)).1, e.isSend = true) →
      norm_answer c3Input.confirm1 = yesChars ∧
      norm_answer c3Input.confirm2 = yesChars ∧
      ∃ R pre post, ((main_run c3Input).getD ([], 0)).1 = pre ++ post ∧
        (∃ bk, get_booking_data c3Input.pasteStream = some (bk, R)) ∧
        (∀ r ∈ R, Event.printed (dry_run_line r) ∈ pre) ∧
        (∀ e ∈ pre, e.isSend = false))) :=
  ⟨by decide, main_run_send_gating c3Input ((main_run c3Input).getD ([], 0)).1
    ((main_run c3Input).getD ([], 0)).2 (by decide)⟩

/-- Elements of the common prefix are never sleep events. -/
theorem prefix_no_sleep (bk : List Event) (hbk : ∀ e ∈ bk, ∃ l, e = .printed l)
    (sd rid t : List Char) (R : List Recipient) :
    ∀ e ∈ bk ++ [Event.csvWrite (csv_filename sd rid)] ++ [Event.templateLoad] ++
      dry_run_pass t sd rid R, e.isSleep = false := by
  intro e he
  simp only [List.append_assoc, List.mem_append] at he
  rcases he with h | h | h | h
  · obtain ⟨l, rfl⟩ := hbk e h
    rfl
  · rw [List.mem_singleton] at h
    subst h
    rfl
  · rw [List.mem_singleton] at h
    subst h
    rfl
  · rw [dry_run_pass_eq] at h
    obtain ⟨r, -, rfl⟩ := List.mem_map.mp h
    rfl

/-- Exactly the first `m - 1` of `m` positions starting at 1 lie strictly
below `m`. -/
theorem countP_range_sleeps (m : Nat) :
    (List.range m).countP (fun j => decide (1 + j < m)) = m - 1 := by
  cases m with
  | zero => rfl
  | succ k =>
    rw [List.range_succ, List.countP_append]
    have h1 : (List.range k).countP (fun j => decide (1 + j < k + 1)) =
        (List.range k).length := by
      apply List.countP_eq_length.mpr
      intro a ha
      rw [List.mem_range] at ha
      simp only [decide_eq_true_eq]
      omega
    rw [h1, List.length_range]
    have h2 : (List.countP (fun j => decide (1 + j < k + 1)) [k]) = 0 := by
      simp
      omega
    rw [h2]
    omega

/-- C4, counterexample: with a single recipient the real-send pass performs
one delivery attempt and zero sleeps, so no fixed delay follows the (only,
hence every) email send of this run. -/
def c4Input : MainInput :=
  { templateExists := true
    templateText := toCharList "Hello"
    dateInputs := [toCharList "1204"]
    numInputs := [toCharList "1"]
    pasteStream := [toCharList "Alice", toCharList "alice@example.com", []]
    confirm1 := toCharList "yes"
    confirm2 := toCharList "yes"
    connectOk := true
    deliveryOk := fun _ => true
    errText := fun _ => [] }

theorem main_run_sleep_counterexample :
    (main_run c4Input).map (fun p =>
      (p.1.countP Event.isSend, p.1.countP Event.isSleep, p.2)) = some (1, 0, 1) := by
  decide

/-- C4, amended: during the real-send pass the script sleeps for the fixed
delay after each email send except the last one: a completed confirmed run
over `n` recipients attempts `n` deliveries and sleeps exactly `n - 1`
times, each sleep lasting `DELAY_BETWEEN_EMAILS` seconds. -/
theorem main_run_sleep_between_sends (inp : MainInput) (evs : List Event)
    (cnt : Nat) (h : main_run inp = some (evs, cnt))
    (hte : inp.templateExists = true)
    (hc1 : norm_answer inp.confirm1 = yesChars)
    (hc2 : norm_answer inp.confirm2 = yesChars)
    (hco : inp.connectOk = true)
    (bk : List Event) (R : List Recipient)
    (hbk : get_booking_data inp.pasteStream = some (bk, R)) (hR : R ≠ []) :
    evs.countP Event.isSend = R.length ∧
    evs.countP Event.isSleep = R.length - 1 ∧
    (∀ e ∈ evs, e.isSleep = true → e = .sleep DELAY_BETWEEN_EMAILS) := by
  rcases main_run_cases inp evs cnt h with
    ⟨hte', _, _⟩ | ⟨sd, rid, bk', R', hte', hsi, hbk', hrest⟩
  · rw [hte] at hte'
    cases hte'
  · rw [hbk] at hbk'
    simp only [Option.some.injEq, Prod.mk.injEq] at hbk'
    obtain ⟨hb1, hb2⟩ := hbk'
    subst hb1
    subst hb2
    have hbkp := get_booking_data_printed inp.pasteStream bk R hbk
    rcases hrest with ⟨hR', _, _⟩ | ⟨_, hc1', _, _⟩ |
      ⟨_, _, hc2', _, _⟩ | ⟨_, _, _, hco', _, _⟩ | ⟨_, _, _, _, he, hcnt⟩
    · exact absurd hR' hR
    · exact absurd hc1 hc1'
    · exact absurd hc2 hc2'
    · rw [hco] at hco'
      cases hco'
    · obtain ⟨sp1, sp2, sp3, sp4, sp5⟩ :=
        real_send_pass_spec inp.templateText sd rid inp.deliveryOk inp.errText
          R.length R 1 0
      subst he
      have hpre0 : (bk ++ [Event.csvWrite (csv_filename sd rid)] ++
          [Event.templateLoad] ++
          dry_run_pass inp.templateText sd rid R).countP Event.isSend = 0 := by
        apply List.countP_eq_zero.mpr
        intro e he'
        simp [prefix_no_send bk hbkp sd rid inp.templateText R e he']
      have hpre1 : (bk ++ [Event.csvWrite (csv_filename sd rid)] ++
          [Event.templateLoad] ++
          dry_run_pass inp.templateText sd rid R).countP Event.isSleep = 0 := by
        apply List.countP_eq_zero.mpr
        intro e he'
        simp [prefix_no_sleep bk hbkp sd rid inp.templateText R e he']
      refine ⟨?_, ?_, ?_⟩
      · rw [List.countP_append, hpre0, sp1]
        omega
      · rw [List.countP_append, hpre1, sp3, countP_range_sleeps]
        omega
      · intro e he' hs
        rcases List.mem_append.mp he' with h2 | h2
        · rw [prefix_no_sleep bk hbkp sd rid inp.templateText R e h2] at hs
          cases hs
        · exact sp4 e h2 hs

/-- Witness for the amended C4 at a run over two recipients: two delivery
attempts, one sleep. -/
def c4wInput : MainInput :=
  { templateExists := true
    templateText := toCharList "Hello"
    dateInputs := [toCharList "1204"]
    numInputs := [toCharList "1"]
    pasteStream := [toCharList "Alice", toCharList "alice@example.com",
      toCharList "bob smith", toCharList "bob@example.org", []]
    confirm1 := toCharList "yes"
    confirm2 := toCharList "yes"
    connectOk := true
    deliveryOk := fun _ => true
    errText := fun _ => [] }

set_option maxRecDepth 10000 in
theorem main_run_sleep_between_sends_witness :
    main_run c4wInput = some (((main_run c4wInput).getD ([], 0)).1,
      ((main_run c4wInput).getD ([], 0)).2) ∧
    (((main_run c4wInput).getD ([], 0)).1.countP Event.isSend =
      [(⟨toCharList "Alice", toCharList "alice@example.com"⟩ : Recipient),
       ⟨toCharList "Bob Smith", toCharList "bob@example.org"⟩].length ∧
    ((main_run c4wInput).getD ([], 0)).1.countP Event.isSleep =
      [(⟨toCharList "Alice", toCharList "alice@example.com"⟩ : Recipient),
       ⟨toCharList "Bob Smith", toCharList "bob@example.org"⟩].length - 1 ∧
    (∀ e ∈ ((main_run c4wInput).getD ([], 0)).1,
      e.isSleep = true → e = .sleep DELAY_BETWEEN_EMAILS)) :=
  ⟨by decide, main_run_sleep_between_sends c4wInput
    ((main_run c4wInput).getD ([], 0)).1 ((main_run c4wInput).getD ([], 0)).2
    (by decide) (by decide) (by decide) (by decide) (by decide)
    [Event.printed (parsed_count_line 2)]
    [⟨toCharList "Alice", toCharList "alice@example.com"⟩,
     ⟨toCharList "Bob Smith", toCharList "bob@example.org"⟩]
    (by decide) (by decide)⟩

/-- C5: a delivery failure is caught inside `send_email` (which returns
`False` and prints a diagnostic naming the failed recipient address), the
real-send loop still attempts every remaining recipient, and the final
success count equals the number of deliveries that returned `True`. -/
theorem main_run_failure_isolation (inp : MainInput) (evs : List Event)
    (cnt : Nat) (h : main_run inp = some (evs, cnt))
    (hte : inp.templateExists = true)
    (hc1 : norm_answer inp.confirm1 = yesChars)
    (hc2 : norm_answer inp.confirm2 = yesChars)
    (hco : inp.connectOk = true)
    (bk : List Event) (R : List Recipient)
    (hbk : get_booking_data inp.pasteStream = some (bk, R)) (hR : R ≠ []) :
    (∀ r msg e, send_email r msg false false e =
      (false, [.sendMessage msg, .printed (fail_line r.email e)])) ∧
    evs.countP Event.isSend = R.length ∧
    cnt = (List.range R.length).countP (fun j => inp.deliveryOk (1 + j)) ∧
    (∀ j, j < R.length → inp.deliveryOk (1 + j) = false →
      Event.printed (fail_line (R.getD j ⟨[], []⟩).email (inp.errText (1 + j))) ∈ evs) := by
  rcases main_run_cases inp evs cnt h with
    ⟨hte', _, _⟩ | ⟨sd, rid, bk', R', hte', hsi, hbk', hrest⟩
  · rw [hte] at hte'
    cases hte'
  · rw [hbk] at hbk'
    simp only [Option.some.injEq, Prod.mk.injEq] at hbk'
    obtain ⟨hb1, hb2⟩ := hbk'
    subst hb1
    subst hb2
    have hbkp := get_booking_data_printed inp.pasteStream bk R hbk
    rcases hrest with ⟨hR', _, _⟩ | ⟨_, hc1', _, _⟩ |
      ⟨_, _, hc2', _, _⟩ | ⟨_, _, _, hco', _, _⟩ | ⟨_, _, _, _, he, hcnt⟩
    · exact absurd hR' hR
    · exact absurd hc1 hc1'
    · exact absurd hc2 hc2'
    · rw [hco] at hco'
      cases hco'
    · obtain ⟨sp1, sp2, sp3, sp4, sp5⟩ :=
        real_send_pass_spec inp.templateText sd rid inp.deliveryOk inp.errText
          R.length R 1 0
      subst he
      refine ⟨fun r msg e => rfl, ?_, ?_, ?_⟩
      · have hpre0 : (bk ++ [Event.csvWrite (csv_filename sd rid)] ++
            [Event.templateLoad] ++
            dry_run_pass inp.templateText sd rid R).countP Event.isSend = 0 := by
          apply List.countP_eq_zero.mpr
          intro e he'
          simp [prefix_no_send bk hbkp sd rid inp.templateText R e he']
        rw [List.countP_append, hpre0, sp1]
        omega
      · rw [hcnt, sp2]
        omega
      · intro j hj hfail
        exact List.mem_append_right _ (sp5 j hj hfail)

/-- Witness for C5: a two-recipient run whose first delivery raises; the
loop continues, the diagnostic for the first address is in the trace, and
one email counts as sent. -/
def c5Input : MainInput :=
  { templateExists := true
    templateText := toCharList "Hello"
    dateInputs := [toCharList "1204"]
    numInputs := [toCharList "1"]
    pasteStream := [toCharList "Alice", toCharList "alice@example.com",
      toCharList "bob smith", toCharList "bob@example.org", []]
    confirm1 := toCharList "yes"
    confirm2 := toCharList "yes"
    connectOk := true
    deliveryOk := fun i => decide (i ≠ 1)
    errText := fun _ => toCharList "boom" }

set_option maxRecDepth 10000 in
theorem main_run_failure_isolation_witness :
    main_run c5Input = some (((main_run c5Input).getD ([], 0)).1,
      ((main_run c5Input).getD ([], 0)).2) ∧
    ((∀ r msg e, send_email r msg false false e =
        (false, [.sendMessage msg, .printed (fail_line r.email e)])) ∧
    ((main_run c5Input).getD ([], 0)).1.countP Event.isSend =
      [(⟨toCharList "Alice", toCharList "alice@example.com"⟩ : Recipient),
       ⟨toCharList "Bob Smith", toCharList "bob@example.org"⟩].length ∧
    ((main_run c5Input).getD ([], 0)).2 =
      (List.range [(⟨toCharList "Alice", toCharList "alice@example.com"⟩ : Recipient),
       ⟨toCharList "Bob Smith", toCharList "bob@example.org"⟩].length).countP
        (fun j => c5Input.deliveryOk (1 + j)) ∧
    (∀ j, j < [(⟨toCharList "Alice", toCharList "alice@example.com"⟩ : Recipient),
       ⟨toCharList "Bob Smith", toCharList "bob@example.org"⟩].length →
      c5Input.deliveryOk (1 + j) = false →
      Event.printed (fail_line
        ([(⟨toCharList "Alice", toCharList "alice@example.com"⟩ : Recipient),
          ⟨toCharList "Bob Smith", toCharList "bob@example.org"⟩].getD j
            ⟨[], []⟩).email (c5Input.errText (1 + j))) ∈
        ((main_run c5Input).getD ([], 0)).1)) :=
  ⟨by decide, main_run_failure_isolation c5Input
    ((main_run c5Input).getD ([], 0)).1 ((main_run c5Input).getD ([], 0)).2
    (by decide) (by decide) (by decide) (by decide) (by decide)
    [Event.printed (parsed_count_line 2)]
    [⟨toCharList "Alice", toCharList "alice@example.com"⟩,
     ⟨toCharList "Bob Smith", toCharList "bob@example.org"⟩]
    (by decide) (by decide)⟩

/-- The dry-run console line starts with a space. -/
theorem dry_run_line_head (r : Recipient) : (dry_run_line r).head? = some ' ' := rfl

/-- The parse-error diagnostic starts with a newline. -/
theorem parse_error_line_head (msg : List Char) :
    (parse_error_line msg).head? = some '\n' := rfl

/-- The retry prompt starts with the letter P. -/
theorem paste_retry_line_head : paste_retry_line.head? = some 'P' := rfl

/-- C8: when the pasted block parses with a `ValueError`, `get_booking_data`
catches it, prints the two diagnostics and returns the empty list, and
`main` then returns at once: zero success count, no CSV write, no template
load, no delivery attempt and no dry-run line. -/
theorem main_run_malformed_paste_aborts (inp : MainInput) (evs : List Event)
    (cnt : Nat) (h : main_run inp = some (evs, cnt))
    (hte : inp.templateExists = true)
    (lines : List (List Char))
    (hc : collect_paste_lines [] inp.pasteStream = some lines)
    (msg : List Char)
    (hp : parse_booking_data (joinNl lines) = .error msg) :
    get_booking_data inp.pasteStream =
      some ([.printed (parse_error_line msg), .printed paste_retry_line], []) ∧
    evs = [.printed (parse_error_line msg), .printed paste_retry_line] ∧
    cnt = 0 ∧
    (∀ f, Event.csvWrite f ∉ evs) ∧
    Event.templateLoad ∉ evs ∧
    (∀ m, Event.sendMessage m ∉ evs) ∧
    (∀ r : Recipient, Event.printed (dry_run_line r) ∉ evs) := by
  have hgb : get_booking_data inp.pasteStream =
      some ([.printed (parse_error_line msg), .printed paste_retry_line], []) := by
    unfold get_booking_data
    rw [hc]
    simp only [hp]
  rcases main_run_cases inp evs cnt h with
    ⟨hte', _, _⟩ | ⟨sd, rid, bk', R', hte', hsi, hbk', hrest⟩
  · rw [hte] at hte'
    cases hte'
  · rw [hgb] at hbk'
    simp only [Option.some.injEq, Prod.mk.injEq] at hbk'
    obtain ⟨hb1, hb2⟩ := hbk'
    rcases hrest with ⟨hR', he, hcnt⟩ | ⟨hR', _, _, _⟩ |
      ⟨hR', _, _, _, _⟩ | ⟨hR', _, _, _, _, _⟩ | ⟨hR', _, _, _, _, _⟩
    all_goals first
    | ( exact absurd hb2.symm hR' )
    | ( refine ⟨hgb, ?_, hcnt, ?_, ?_, ?_, ?_⟩
        · rw [he, ← hb1]
        · intro f hf
          rw [he, ← hb1] at hf
          simp at hf
        · rw [he, ← hb1]
          simp
        · intro m hm
          rw [he, ← hb1] at hm
          simp at hm
        · intro r hr
          rw [he, ← hb1] at hr
          rcases List.mem_cons.mp hr with h1 | h1
          · have h2 := congrArg List.head? (Event.printed.inj h1)
            rw [dry_run_line_head, parse_error_line_head] at h2
            exact absurd h2 (by decide)
          · rw [List.mem_singleton] at h1
            have h2 := congrArg List.head? (Event.printed.inj h1)
            rw [dry_run_line_head, paste_retry_line_head] at h2
            exact absurd h2 (by decide) )

/-- Witness for C8: a one-line paste makes the run abort after the two
diagnostics. -/
def c8Input : MainInput :=
  { templateExists := true
    templateText := toCharList "Hello"
    dateInputs := [toCharList "1204"]
    numInputs := [toCharList "1"]
    pasteStream := [toCharList "Alice", []]
    confirm1 := toCharList "yes"
    confirm2 := toCharList "yes"
    connectOk := true
    deliveryOk := fun _ => true
    errText := fun _ => [] }

set_option maxRecDepth 10000 in
theorem main_run_malformed_paste_aborts_witness :
    main_run c8Input = some (((main_run c8Input).getD ([], 0)).1,
      ((main_run c8Input).getD ([], 0)).2) ∧
    (get_booking_data c8Input.pasteStream =
      some ([.printed (parse_error_line
          (toCharList "Expected even number of lines (name/email pairs), got " ++
            Nat.toDigits 10 1)),
        .printed paste_retry_line], []) ∧
    ((main_run c8Input).getD ([], 0)).1 =
      [.printed (parse_error_line
          (toCharList "Expected even number of lines (name/email pairs), got " ++
            Nat.toDigits 10 1)),
        .printed paste_retry_line] ∧
    ((main_run c8Input).getD ([], 0)).2 = 0 ∧
    (∀ f, Event.csvWrite f ∉ ((main_run c8Input).getD ([], 0)).1) ∧
    Event.templateLoad ∉ ((main_run c8Input).getD ([], 0)).1 ∧
    (∀ m, Event.sendMessage m ∉ ((main_run c8Input).getD ([], 0)).1) ∧
    (∀ r : Recipient, Event.printed (dry_run_line r) ∉
      ((main_run c8Input).getD ([], 0)).1)) :=
  ⟨by decide, main_run_malformed_paste_aborts c8Input
    ((main_run c8Input).getD ([], 0)).1 ((main_run c8Input).getD ([], 0)).2
    (by decide) (by decide) [toCharList "Alice"] (by decide)
    (toCharList "Expected even number of lines (name/email pairs), got " ++
      Nat.toDigits 10 1) (by rfl)⟩
